import Mathlib

/-!
Shallow embedding of the NVidiaSpeechToText backend (src/backend/config.py,
audio_utils.py, model_service.py, app.py) and proofs about it.

External libraries (librosa, soundfile, the NeMo ASR model, the OS file
system) are modelled as oracles passed explicitly to the embedded
functions; Python exceptions become `Except`/`Option` values; the mutable
module-level globals become explicit state threading.
-/

/- ------------------------------------------------------------------
config.py
------------------------------------------------------------------ -/

/-- config.py: `MODEL_NAME = "nvidia/parakeet-tdt-0.6b-v3"`. -/
def MODEL_NAME : String := "nvidia/parakeet-tdt-0.6b-v3"

/-- config.py: `SAMPLE_RATE = 16000`. -/
def SAMPLE_RATE : Nat := 16000

/-- config.py: `MAX_AUDIO_DURATION = 24 * 60` (seconds). -/
def MAX_AUDIO_DURATION : Nat := 24 * 60

/-- config.py: `ALLOWED_FORMATS = ['.wav', '.webm', '.mp3', '.flac', '.m4a', '.ogg']`. -/
def ALLOWED_FORMATS : List String := [".wav", ".webm", ".mp3", ".flac", ".m4a", ".ogg"]

/- ------------------------------------------------------------------
Path helpers used by app.py and audio_utils.py

`Path(filename).suffix.lower()` (app.py line 110) and
`input_path.rsplit('.', 1)[0]` (audio_utils.py line 29).
------------------------------------------------------------------ -/

/-- Split a character list at every `/`, keeping empty pieces. -/
def splitOnSlash : List Char → List (List Char)
  | [] => [[]]
  | c :: rest =>
    let r := splitOnSlash rest
    if c = '/' then [] :: r
    else
      match r with
      | [] => [[c]]
      | hd :: tl => (c :: hd) :: tl

/-- `pathlib.Path(...).name`: pathlib parses the string into components,
dropping empty components (from leading, trailing or doubled slashes) and
bare `.` components (but keeping `..`), and `.name` is the last remaining
component — the empty string when none remains. -/
def lastComponent (s : String) : String :=
  let comps :=
    (splitOnSlash s.data).filter (fun cs => decide (cs ≠ [] ∧ cs ≠ ['.']))
  match comps.getLast? with
  | some cs => ⟨cs⟩
  | none => ""

/-- `pathlib.PurePath.suffix` of a bare file name: the substring from the
last `.` on, unless the last `.` is the first character (dotfile) or the
last character (trailing dot) or there is no `.` at all, in which case
the suffix is empty. -/
def pathSuffix (name : String) : String :=
  let cs := name.data
  let afterRev := cs.reverse.takeWhile (fun c => c ≠ '.')
  if afterRev.length = cs.length then ""
  else if cs.length - afterRev.length - 1 = 0 then ""
  else if afterRev.length = 0 then ""
  else ⟨'.' :: afterRev.reverse⟩

/-- `str.lower()`: lower-case every character. -/
def strLower (s : String) : String :=
  ⟨s.data.map Char.toLower⟩

/-- app.py line 110: `Path(audio.filename).suffix.lower()`. -/
def fileExtension (filename : String) : String :=
  strLower (pathSuffix (lastComponent filename))

/-- `s.rsplit('.', 1)[0]`: everything before the last `.`, or the whole
string when there is no `.` (audio_utils.py line 29). -/
def stripLastExt (s : String) : String :=
  let cs := s.data
  let afterRev := cs.reverse.takeWhile (fun c => c ≠ '.')
  if afterRev.length = cs.length then s
  else ⟨cs.take (cs.length - afterRev.length - 1)⟩

/- ------------------------------------------------------------------
audio_utils.py

librosa is modelled by a decode oracle `load : String → DecodeResult`
giving, for each path, either the waveform stored there or a decode
failure.  `librosa.load(path, sr=r, mono=True)` then yields a
single-channel waveform resampled to rate `r`;
`librosa.load(path, sr=None, mono=False)` yields the native waveform.
`librosa.get_duration(y, sr)` is samples-per-channel divided by the
sample rate.  `soundfile.write(path, audio, r)` records a waveform with
the shape of `audio` at rate `r`.
------------------------------------------------------------------ -/

/-- A decoded waveform: channel count (1 for a flat array), samples per
channel, and native sample rate. -/
structure Waveform where
  channels : Nat
  sampleRate : Nat
  samplesPerChannel : Nat
deriving DecidableEq, Repr

/-- Result of decoding the audio stored at a path. -/
inductive DecodeResult where
  | ok (w : Waveform)
  | err (msg : String)
deriving DecidableEq, Repr

/-- `librosa.get_duration(y=audio, sr=sr)`: samples per channel divided
by the sample rate, in seconds. -/
def waveformDuration (w : Waveform) : ℚ :=
  (w.samplesPerChannel : ℚ) / (w.sampleRate : ℚ)

/-- Sample count after resampling from `w.sampleRate` to `target`
(duration-preserving up to rounding; the exact interpolation is opaque). -/
def resampleCount (w : Waveform) (target : Nat) : Nat :=
  w.samplesPerChannel * target / w.sampleRate

/-- audio_utils.py `convert_to_wav(input_path, output_path=None)`:
load the input mono at `SAMPLE_RATE`, derive the output path when none is
given, write the waveform out, and return the output path.  Any failure
is re-raised as `ValueError("Failed to convert audio file: ...")`,
modelled as `Except.error`.  On success the result carries the output
path and the waveform written there by `sf.write`. -/
def convert_to_wav (load : String → DecodeResult) (input_path : String)
    (output_path : Option String) : Except String (String × Waveform) :=
  match load input_path with
  | .err m => .error ("Failed to convert audio file: " ++ m)
  | .ok w =>
    let out := match output_path with
      | some p => p
      | none => stripLastExt input_path ++ "_converted.wav"
    .ok (out, ⟨1, SAMPLE_RATE, resampleCount w SAMPLE_RATE⟩)

/-- The dictionary returned by `validate_audio`. -/
structure AudioMetadata where
  duration : ℚ
  sample_rate : Nat
  channels : Nat
  valid : Bool
deriving DecidableEq, Repr

/-- The `ValueError` raised by `validate_audio`, kept structured: the
duration-exceeded branch carries the measured and the maximum duration
(both appear in the raised message), the decode branch carries the
underlying cause. -/
inductive ValidationError where
  | durationExceeded (measured : ℚ) (maximum : Nat)
  | decodeFailed (msg : String)
deriving DecidableEq, Repr

/-- `str(e)` for the `ValueError` raised by `validate_audio`; every raise
inside the `try` is re-wrapped by the outer
`except Exception: raise ValueError(f"Audio validation failed: ...")`. -/
def validationErrorStr : ValidationError → String
  | .durationExceeded measured maximum =>
      "Audio validation failed: Audio duration (" ++ toString measured ++
        "s) exceeds maximum allowed duration (" ++ toString maximum ++ "s)"
  | .decodeFailed m => "Audio validation failed: " ++ m

/-- audio_utils.py `validate_audio(file_path)`: decode natively
(`sr=None, mono=False`), measure duration, fail when it exceeds
`MAX_AUDIO_DURATION`, otherwise return metadata.  Channel count is 1 for
a flat waveform, else the leading dimension. -/
def validate_audio (load : String → DecodeResult) (file_path : String) :
    Except ValidationError AudioMetadata :=
  match load file_path with
  | .err m => .error (.decodeFailed m)
  | .ok w =>
    let duration := waveformDuration w
    if duration > (MAX_AUDIO_DURATION : ℚ) then
      .error (.durationExceeded duration MAX_AUDIO_DURATION)
    else
      .ok ⟨duration, w.sampleRate, w.channels, true⟩

/- ------------------------------------------------------------------
model_service.py

The NeMo model object is opaque; `ASRModel.from_pretrained` is modelled
by an oracle `mk : Except String ASRModel` (error = the load raised).
The module-level global `_model_service_instance` becomes an explicit
`Option ModelService` threaded through `get_model_service`.
------------------------------------------------------------------ -/

/-- An opaque loaded ASR model; the tag distinguishes instances. -/
structure ASRModel where
  tag : Nat
deriving DecidableEq, Repr

/-- model_service.py `ModelService`: `self.model` (None until
`_load_model` succeeds) and `self.model_name`. -/
structure ModelService where
  model : Option ASRModel
  model_name : String
deriving DecidableEq, Repr

/-- `ModelService.__init__`: set `model = None`, `model_name = MODEL_NAME`,
then `_load_model`, which either installs the pretrained model or raises
`RuntimeError("Model initialization failed: ...")`; a raise aborts the
construction, so no instance is produced. -/
def mkModelService (mk : Except String ASRModel) : Except String ModelService :=
  match mk with
  | .error m => .error ("Model initialization failed: " ++ m)
  | .ok mdl => .ok ⟨some mdl, MODEL_NAME⟩

/-- The dictionary returned by `ModelService.get_model_info`. -/
structure ModelInfo where
  model_name : String
  device : String
  status : String
deriving DecidableEq, Repr

/-- model_service.py `ModelService.get_model_info`: read-only snapshot;
`device` reflects `torch.cuda.is_available()` (passed as an oracle),
`status` is `"loaded"` iff `self.model` is set. -/
def get_model_info (s : ModelService) (cudaAvailable : Bool) : ModelInfo :=
  { model_name := s.model_name
  , device := if cudaAvailable then "cuda" else "cpu"
  , status := if s.model.isSome then "loaded" else "not loaded" }

/-- model_service.py `get_model_service()`: return the global instance,
constructing it first when absent.  Result: the call's outcome, the new
global state, and whether this call constructed a new instance (a raise
inside `ModelService.__init__` aborts the construction, so no instance
is produced and the global is left unset). -/
def get_model_service (mk : Except String ASRModel)
    (st : Option ModelService) :
    Except String ModelService × Option ModelService × Bool :=
  match st with
  | some inst => (.ok inst, some inst, false)
  | none =>
    match mkModelService mk with
    | .error m => (.error m, none, false)
    | .ok inst => (.ok inst, some inst, true)

/-- A sequence of `n` acquisitions of the model service, each call atomic
(the function body runs synchronously on the single event-loop thread,
with no await point between the check and the assignment).  Returns the
list of call results, the final global state, and how many calls ran a
construction that completed successfully. -/
def runCalls (mk : Except String ASRModel) :
    Nat → Option ModelService →
    List (Except String ModelService) × Option ModelService × Nat
  | 0, st => ([], st, 0)
  | n + 1, st =>
    let g := get_model_service mk st
    let rest := runCalls mk n g.2.1
    (g.1 :: rest.1, rest.2.1, (if g.2.2 then 1 else 0) + rest.2.2)

/- ------------------------------------------------------------------
app.py — the /transcribe handler.

The handler's calls into the outside world (writing the upload to disk,
`convert_to_wav`, `validate_audio`, `model_service.transcribe`,
`os.remove`) are modelled by a per-request oracle fixing each step's
outcome; the handler itself is the exact control flow of
`transcribe_audio`: the format gate, the try block, the
`except HTTPException: raise`, the generic `except Exception` → 500, and
the `finally` cleanup whose own failures are only logged.
------------------------------------------------------------------ -/

/-- The dictionary returned by `ModelService.transcribe`. -/
structure TranscriptionResult where
  text : String
  language : String
  confidence : Option ℚ
deriving DecidableEq, Repr

/-- The JSON body returned on success by `/transcribe`. -/
structure SuccessBody where
  text : String
  language : String
  audio_duration : ℚ
  original_filename : String
deriving DecidableEq, Repr

/-- An HTTP outcome of the handler: a 200 JSON body or an
`HTTPException(status_code, detail)`. -/
inductive Response where
  | success (body : SuccessBody)
  | httpError (status : Nat) (detail : String)
deriving DecidableEq, Repr

/-- Existence of the two per-request temporary files
(`{file_id}_input{ext}` and `{file_id}_converted.wav`). -/
structure TempFiles where
  inputExists : Bool
  wavExists : Bool
deriving DecidableEq, Repr

/-- Pipeline steps the handler invokes, in order of occurrence. -/
inductive Event where
  | saveUpload
  | convertCall
  | validateCall
  | transcribeCall
deriving DecidableEq, Repr

/-- Outcomes of the effectful steps of one `/transcribe` request:
`saveErr` = the exception message when persisting the upload raises
(`none` when the write succeeds); `convertRes` = outcome of
`convert_to_wav` (`ValueError` message on failure); `validateRes` =
outcome of `validate_audio`; `transcribeRes` = outcome of
`model_service.transcribe` (`RuntimeError` message on failure);
`removeInputOk` / `removeWavOk` = whether each `os.remove` in the cleanup
succeeds. -/
structure PipelineOracle where
  saveErr : Option String
  convertRes : Except String Unit
  validateRes : Except ValidationError AudioMetadata
  transcribeRes : Except String TranscriptionResult
  removeInputOk : Bool
  removeWavOk : Bool
deriving Repr

/-- app.py lines 123-170, the `try` body of `transcribe_audio`: persist
the upload, convert, validate, transcribe; `ValueError` from conversion →
`HTTPException(400, "Audio conversion failed: ...")`; `ValueError` from
validation → `HTTPException(400, str(e))`; any other exception (a failed
write, a `RuntimeError` from the engine) → the generic handler’s
`HTTPException(500, "Transcription failed: ...")`.  Returns the response,
which temp files exist when the body finishes, and the steps invoked. -/
def pipelineBody (filename : String) (o : PipelineOracle) :
    Response × TempFiles × List Event :=
  match o.saveErr with
  | some m => (.httpError 500 ("Transcription failed: " ++ m), ⟨false, false⟩, [])
  | none =>
    match o.convertRes with
    | .error m =>
      (.httpError 400 ("Audio conversion failed: " ++ m), ⟨true, false⟩,
        [.saveUpload, .convertCall])
    | .ok _ =>
      match o.validateRes with
      | .error e =>
        (.httpError 400 (validationErrorStr e), ⟨true, true⟩,
          [.saveUpload, .convertCall, .validateCall])
      | .ok meta =>
        match o.transcribeRes with
        | .error m =>
          (.httpError 500 ("Transcription failed: " ++ m), ⟨true, true⟩,
            [.saveUpload, .convertCall, .validateCall, .transcribeCall])
        | .ok r =>
          (.success ⟨r.text, r.language, meta.duration, filename⟩,
            ⟨true, true⟩,
            [.saveUpload, .convertCall, .validateCall, .transcribeCall])

/-- app.py lines 172-180, the `finally` block: one `try` holding both
removals in a fixed order; a raise from the first `os.remove` skips the
second; any exception is only logged (the result records which files
remain). -/
def runCleanup (tf : TempFiles) (o : PipelineOracle) : TempFiles :=
  if tf.inputExists then
    if o.removeInputOk then
      if tf.wavExists then
        if o.removeWavOk then ⟨false, false⟩ else ⟨false, true⟩
      else ⟨false, false⟩
    else tf
  else
    if tf.wavExists then
      if o.removeWavOk then ⟨false, false⟩ else tf
    else tf

/-- app.py `transcribe_audio`: the 503 gate when the global model service
is absent, the extension allow-list gate (400 before any pipeline step),
then the try body followed unconditionally by the cleanup. -/
def transcribe_audio (ms : Option ModelService) (filename : String)
    (o : PipelineOracle) : Response × TempFiles × List Event :=
  match ms with
  | none => (.httpError 503 "Model not initialized", ⟨false, false⟩, [])
  | some _ =>
    if fileExtension filename ∈ ALLOWED_FORMATS then
      let r := pipelineBody filename o
      (r.1, runCleanup r.2.1 o, r.2.2)
    else
      (.httpError 400
        ("Unsupported file format. Allowed formats: " ++
          String.intercalate ", " ALLOWED_FORMATS), ⟨false, false⟩, [])

/- ------------------------------------------------------------------
app.py — /health, /model-info, /cleanup.
------------------------------------------------------------------ -/

/-- Body of a successful `/health` response. -/
structure HealthBody where
  status : String
  model : ModelInfo
deriving DecidableEq, Repr

/-- app.py `health_check`: 503 when the model service is absent, else
`{status: "healthy", model: get_model_info()}`. -/
def health_check (ms : Option ModelService) (cudaAvailable : Bool) :
    Except (Nat × String) HealthBody :=
  match ms with
  | none => .error (503, "Model not initialized")
  | some s => .ok ⟨"healthy", get_model_info s cudaAvailable⟩

/-- app.py `model_info`: 503 when the model service is absent, else
`get_model_info()`. -/
def model_info (ms : Option ModelService) (cudaAvailable : Bool) :
    Except (Nat × String) ModelInfo :=
  match ms with
  | none => .error (503, "Model not initialized")
  | some s => .ok (get_model_info s cudaAvailable)

/-- A directory entry as `os.path.isfile` sees it. -/
inductive EntryKind where
  | file
  | dir
deriving DecidableEq, Repr

/-- The loop of `cleanup_temp_files`: walk the `os.listdir` listing in
order; skip non-files; `os.remove` each file, stopping at the first
remove that raises.  Returns (files actually removed, entries still on
disk, the raising path when the loop aborted). -/
def deleteFilesLoop (removeOk : String → Bool) :
    List (String × EntryKind) → Nat × List (String × EntryKind) × Option String
  | [] => (0, [], none)
  | (n, .dir) :: rest =>
    let (c, r, e) := deleteFilesLoop removeOk rest
    (c, (n, .dir) :: r, e)
  | (n, .file) :: rest =>
    if removeOk n then
      let (c, r, e) := deleteFilesLoop removeOk rest
      (c + 1, r, e)
    else (0, (n, EntryKind.file) :: rest, some n)

/-- Response of `DELETE /cleanup`. -/
inductive CleanupResponse where
  | ok (files_deleted : Nat)
  | err (status : Nat) (detail : String)
deriving DecidableEq, Repr

/-- app.py `cleanup_temp_files`: list the temp directory, remove every
regular file, and on success report `files_deleted = len(files)` — the
length of the whole listing; any exception → `HTTPException(500, ...)`.
Returns the response and the entries remaining on disk. -/
def cleanup_temp_files (d : List (String × EntryKind))
    (removeOk : String → Bool) : CleanupResponse × List (String × EntryKind) :=
  let l := deleteFilesLoop removeOk d
  match l.2.2 with
  | some n => (.err 500 ("Cleanup failed: could not remove " ++ n), l.2.1)
  | none => (.ok d.length, l.2.1)

/-- Number of regular-file entries in a listing. -/
def countFiles (d : List (String × EntryKind)) : Nat :=
  (d.filter (fun p => p.2 = EntryKind.file)).length

/- ------------------------------------------------------------------
Helper lemmas (shared between claim theorems).
------------------------------------------------------------------ -/

/-- When both removals succeed, the cleanup block empties the temp files,
whatever existed. -/
theorem runCleanup_all_ok (tf : TempFiles) (o : PipelineOracle)
    (h1 : o.removeInputOk = true) (h2 : o.removeWavOk = true) :
    runCleanup tf o = ⟨false, false⟩ := by
  rcases tf with ⟨i, w⟩
  cases i <;> cases w <;> simp [runCleanup, h1, h2]

/-- The try body of the handler never reads the removal outcomes. -/
theorem pipelineBody_remove_irrel (filename : String) (o : PipelineOracle)
    (rI rW : Bool) :
    pipelineBody filename { o with removeInputOk := rI, removeWavOk := rW } =
      pipelineBody filename o := rfl

/-- Once the global holds an instance, every later acquisition returns it
and constructs nothing. -/
theorem runCalls_some (mk : Except String ASRModel) (inst : ModelService) :
    ∀ n : Nat, runCalls mk n (some inst) =
      (List.replicate n (Except.ok inst), some inst, 0) := by
  intro n
  induction n with
  | zero => rfl
  | succ m ih => simp [runCalls, get_model_service, ih, List.replicate_succ]

/-- From an unset global, a run of `n ≥ 1` acquisitions with a loadable
model returns the one instance `n` times and constructs exactly once. -/
theorem runCalls_none_ok (mdl : ASRModel) (n : Nat) (h : 1 ≤ n) :
    runCalls (Except.ok mdl) n none =
      (List.replicate n (Except.ok ⟨some mdl, MODEL_NAME⟩),
        some (⟨some mdl, MODEL_NAME⟩ : ModelService), 1) := by
  cases n with
  | zero => exact absurd h (by decide)
  | succ m =>
    simp [runCalls, get_model_service, mkModelService,
      runCalls_some (Except.ok mdl) ⟨some mdl, MODEL_NAME⟩ m,
      List.replicate_succ]

/-- When every regular file in the listing can be removed, the loop
removes exactly the regular files, keeps the directories, and finishes
without raising. -/
theorem deleteFilesLoop_all_ok (removeOk : String → Bool) :
    ∀ d : List (String × EntryKind),
      (∀ p ∈ d, p.2 = EntryKind.file → removeOk p.1 = true) →
      deleteFilesLoop removeOk d =
        (countFiles d, d.filter (fun p => p.2 = EntryKind.dir), none) := by
  intro d
  induction d with
  | nil => intro _; rfl
  | cons hd tl ih =>
    intro hok
    rcases hd with ⟨n, k⟩
    have htl : ∀ p ∈ tl, p.2 = EntryKind.file → removeOk p.1 = true :=
      fun p hp => hok p (List.mem_cons_of_mem _ hp)
    cases k with
    | dir => simp [deleteFilesLoop, ih htl, countFiles]
    | file =>
      have hr : removeOk n = true := hok (n, .file) (List.mem_cons_self _ _) rfl
      simp [deleteFilesLoop, hr, ih htl, countFiles]

/- ------------------------------------------------------------------
Claim theorems.
------------------------------------------------------------------ -/

/-- C3: a measured duration above 1440 s makes `validate_audio` fail with
the duration-exceeded error carrying the measured and the maximum
duration; a decodable file with duration at most 1440 s never fails on
the duration basis and its metadata reports a nonnegative duration. -/
theorem validate_audio_duration_policy (load : String → DecodeResult)
    (p : String) (w : Waveform) (h : load p = .ok w) :
    (waveformDuration w > (MAX_AUDIO_DURATION : ℚ) →
      validate_audio load p =
        .error (.durationExceeded (waveformDuration w) MAX_AUDIO_DURATION)) ∧
    (waveformDuration w ≤ (MAX_AUDIO_DURATION : ℚ) →
      ∃ meta : AudioMetadata, validate_audio load p = .ok meta ∧
        meta.duration = waveformDuration w ∧ 0 ≤ meta.duration) := by
  constructor
  · intro hgt
    simp [validate_audio, h, hgt]
  · intro hle
    refine ⟨⟨waveformDuration w, w.sampleRate, w.channels, true⟩, ?_, rfl, ?_⟩
    · simp [validate_audio, h, not_lt.mpr hle]
    · show (0 : ℚ) ≤ waveformDuration w
      exact div_nonneg (Nat.cast_nonneg _) (Nat.cast_nonneg _)

/-- Witness for C3: a 2000 s file is rejected with both durations. -/
theorem validate_audio_duration_policy_witness :
    validate_audio (fun _ => .ok ⟨1, 16000, 32000000⟩) "f.wav" =
      .error (.durationExceeded (waveformDuration ⟨1, 16000, 32000000⟩)
        MAX_AUDIO_DURATION) :=
  (validate_audio_duration_policy _ "f.wav" ⟨1, 16000, 32000000⟩ rfl).1
    (by norm_num [waveformDuration, MAX_AUDIO_DURATION])

/-- C7: whenever `convert_to_wav` succeeds, the written file is
single-channel at exactly 16000 Hz, and when no output path was supplied
the output path is derived from the input path. -/
theorem convert_to_wav_canonical (load : String → DecodeResult)
    (input : String) (outOpt : Option String) (out : String) (w : Waveform)
    (h : convert_to_wav load input outOpt = .ok (out, w)) :
    w.channels = 1 ∧ w.sampleRate = 16000 ∧
    (outOpt = none → out = stripLastExt input ++ "_converted.wav") := by
  cases hl : load input with
  | err m => simp [convert_to_wav, hl] at h
  | ok w0 =>
    cases outOpt with
    | none =>
      simp only [convert_to_wav, hl, Except.ok.injEq, Prod.mk.injEq] at h
      rcases h with ⟨hout, hw⟩
      subst hw
      exact ⟨rfl, rfl, fun _ => hout.symm⟩
    | some pth =>
      simp only [convert_to_wav, hl, Except.ok.injEq, Prod.mk.injEq] at h
      rcases h with ⟨hout, hw⟩
      subst hw
      exact ⟨rfl, rfl, fun hc => by cases hc⟩

/-- Witness for C7: a stereo 44.1 kHz input converts to a mono 16 kHz
file at the derived path. -/
theorem convert_to_wav_canonical_witness :
    (⟨1, 16000, 16000⟩ : Waveform).channels = 1 ∧
    (⟨1, 16000, 16000⟩ : Waveform).sampleRate = 16000 ∧
    ((none : Option String) = none →
      "a_converted.wav" = stripLastExt "a.mp3" ++ "_converted.wav") :=
  convert_to_wav_canonical (fun _ => .ok ⟨2, 44100, 44100⟩) "a.mp3" none
    "a_converted.wav" ⟨1, 16000, 16000⟩ (by rfl)

/-- C1: on every branch of the `/transcribe` pipeline the `finally`
cleanup leaves neither temporary file on disk when the removals succeed,
and the removal outcomes never influence the handler's response: a
cleanup failure is logged only and the primary outcome is unchanged. -/
theorem transcribe_cleanup_invariant (ms : Option ModelService)
    (filename : String) (o : PipelineOracle)
    (h1 : o.removeInputOk = true) (h2 : o.removeWavOk = true) :
    (transcribe_audio ms filename o).2.1 = ⟨false, false⟩ ∧
    ∀ rI rW : Bool,
      (transcribe_audio ms filename
        { o with removeInputOk := rI, removeWavOk := rW }).1 =
        (transcribe_audio ms filename o).1 := by
  constructor
  · cases ms with
    | none => rfl
    | some s =>
      by_cases hext : fileExtension filename ∈ ALLOWED_FORMATS
      · simp only [transcribe_audio, if_pos hext]
        exact runCleanup_all_ok _ _ h1 h2
      · simp [transcribe_audio, hext]
  · intro rI rW
    cases ms with
    | none => rfl
    | some s =>
      by_cases hext : fileExtension filename ∈ ALLOWED_FORMATS
      · simp only [transcribe_audio, if_pos hext]
        rw [pipelineBody_remove_irrel]
      · simp [transcribe_audio, hext]

/-- Witness for C1: a fully successful request ends with both temp files
gone. -/
theorem transcribe_cleanup_invariant_witness :
    (transcribe_audio (some ⟨some ⟨0⟩, MODEL_NAME⟩) "a.wav"
      ⟨none, .ok (), .ok ⟨1, 16000, 1, true⟩, .ok ⟨"hi", "en", none⟩,
        true, true⟩).2.1 = ⟨false, false⟩ :=
  (transcribe_cleanup_invariant _ _ _ rfl rfl).1

/-- C2: with the service initialized and the extension allowed, failures
map to statuses by kind — a conversion failure or a validation failure
gives 400 with the failing stage's detail, a failed upload write or an
inference failure gives 500, and the all-success run gives the 200
body; no other mapping occurs. -/
theorem transcribe_error_mapping (s : ModelService) (filename : String)
    (o : PipelineOracle)
    (hext : fileExtension filename ∈ ALLOWED_FORMATS) :
    (∀ m, o.saveErr = some m →
      (transcribe_audio (some s) filename o).1 =
        .httpError 500 ("Transcription failed: " ++ m)) ∧
    (∀ m, o.saveErr = none → o.convertRes = .error m →
      (transcribe_audio (some s) filename o).1 =
        .httpError 400 ("Audio conversion failed: " ++ m)) ∧
    (∀ e, o.saveErr = none → o.convertRes = .ok () → o.validateRes = .error e →
      (transcribe_audio (some s) filename o).1 =
        .httpError 400 (validationErrorStr e)) ∧
    (∀ m meta, o.saveErr = none → o.convertRes = .ok () →
      o.validateRes = .ok meta → o.transcribeRes = .error m →
      (transcribe_audio (some s) filename o).1 =
        .httpError 500 ("Transcription failed: " ++ m)) ∧
    (∀ meta r, o.saveErr = none → o.convertRes = .ok () →
      o.validateRes = .ok meta → o.transcribeRes = .ok r →
      (transcribe_audio (some s) filename o).1 =
        .success ⟨r.text, r.language, meta.duration, filename⟩) := by
  refine ⟨?_, ?_, ?_, ?_, ?_⟩
  · intro m hm
    simp [transcribe_audio, hext, pipelineBody, hm]
  · intro m hs hc
    simp [transcribe_audio, hext, pipelineBody, hs, hc]
  · intro e hs hc hv
    simp [transcribe_audio, hext, pipelineBody, hs, hc, hv]
  · intro m meta hs hc hv ht
    simp [transcribe_audio, hext, pipelineBody, hs, hc, hv, ht]
  · intro meta r hs hc hv ht
    simp [transcribe_audio, hext, pipelineBody, hs, hc, hv, ht]

/-- Witness for C2: a conversion failure surfaces as 400 with the
conversion detail. -/
theorem transcribe_error_mapping_witness :
    (transcribe_audio (some ⟨some ⟨0⟩, MODEL_NAME⟩) "a.wav"
      ⟨none, .error "bad mp3", .ok ⟨1, 16000, 1, true⟩,
        .ok ⟨"hi", "en", none⟩, true, true⟩).1 =
      .httpError 400 ("Audio conversion failed: " ++ "bad mp3") :=
  (transcribe_error_mapping ⟨some ⟨0⟩, MODEL_NAME⟩ "a.wav" _
    (by decide)).2.1 "bad mp3" rfl rfl

/-- C5: a request to `/transcribe`, `/health` or `/model-info` arriving
while the model service is absent gets 503 `"Model not initialized"`; no
pipeline step runs and no temporary file appears. -/
theorem uninitialized_requests_503 (filename : String) (o : PipelineOracle)
    (cuda : Bool) :
    transcribe_audio none filename o =
      (.httpError 503 "Model not initialized", ⟨false, false⟩, []) ∧
    health_check none cuda = .error (503, "Model not initialized") ∧
    model_info none cuda = .error (503, "Model not initialized") :=
  ⟨rfl, rfl, rfl⟩

/-- C6: an upload whose declared extension (lower-cased suffix) is not in
the allow-list is rejected with 400 before the pipeline: no file is
written and no conversion, validation or inference step is invoked. -/
theorem bad_extension_rejected_before_pipeline (s : ModelService)
    (filename : String) (o : PipelineOracle)
    (h : fileExtension filename ∉ ALLOWED_FORMATS) :
    transcribe_audio (some s) filename o =
      (.httpError 400 ("Unsupported file format. Allowed formats: " ++
        String.intercalate ", " ALLOWED_FORMATS), ⟨false, false⟩, []) := by
  simp [transcribe_audio, h]

/-- Witness for C6: a `.txt` upload is rejected with 400 and an empty
event trace. -/
theorem bad_extension_rejected_before_pipeline_witness :
    transcribe_audio (some ⟨some ⟨0⟩, MODEL_NAME⟩) "note.txt"
      ⟨none, .ok (), .ok ⟨1, 16000, 1, true⟩, .ok ⟨"hi", "en", none⟩,
        true, true⟩ =
      (.httpError 400 ("Unsupported file format. Allowed formats: " ++
        String.intercalate ", " ALLOWED_FORMATS), ⟨false, false⟩, []) :=
  bad_extension_rejected_before_pipeline _ _ _ (by decide)

/-- C10: the cleanup block attempts both removals inside one guarded
block in order — when removing the input file raises, the converted wav
is not removed and stays on disk (here: converted runs leave both files
when the first removal fails) — while the removal outcomes never change
the handler's response. -/
theorem cleanup_order_frame (s : ModelService) (filename : String)
    (o : PipelineOracle)
    (hext : fileExtension filename ∈ ALLOWED_FORMATS)
    (hsave : o.saveErr = none) (hconv : o.convertRes = .ok ())
    (hrm : o.removeInputOk = false) :
    (∀ tf : TempFiles, tf.inputExists = true → runCleanup tf o = tf) ∧
    (transcribe_audio (some s) filename o).2.1 = ⟨true, true⟩ ∧
    ∀ rI rW : Bool,
      (transcribe_audio (some s) filename
        { o with removeInputOk := rI, removeWavOk := rW }).1 =
        (transcribe_audio (some s) filename o).1 := by
  refine ⟨?_, ?_, ?_⟩
  · intro tf hi
    rcases tf with ⟨i, w⟩
    cases i with
    | false => cases hi
    | true => cases w <;> simp [runCleanup, hrm]
  · cases hv : o.validateRes with
    | error e =>
      simp [transcribe_audio, hext, pipelineBody, hsave, hconv, hv,
        runCleanup, hrm]
    | ok meta =>
      cases ht : o.transcribeRes with
      | error m =>
        simp [transcribe_audio, hext, pipelineBody, hsave, hconv, hv, ht,
          runCleanup, hrm]
      | ok r =>
        simp [transcribe_audio, hext, pipelineBody, hsave, hconv, hv, ht,
          runCleanup, hrm]
  · intro rI rW
    simp only [transcribe_audio, if_pos hext]
    rw [pipelineBody_remove_irrel]

/-- Witness for C10: a successful transcription whose input-file removal
fails leaves both temp files behind. -/
theorem cleanup_order_frame_witness :
    (transcribe_audio (some ⟨some ⟨0⟩, MODEL_NAME⟩) "a.wav"
      ⟨none, .ok (), .ok ⟨1, 16000, 1, true⟩, .ok ⟨"hi", "en", none⟩,
        false, true⟩).2.1 = ⟨true, true⟩ :=
  (cleanup_order_frame _ _ _ (by decide) rfl rfl rfl).2.1

/-- C4: from an unset global, any sequence of `n ≥ 1` acquisitions of the
model service yields the same instance on every call, with exactly one
construction. -/
theorem model_service_singleton (mdl : ASRModel) (n : Nat) (h : 1 ≤ n) :
    ∃ inst : ModelService,
      (∀ r ∈ (runCalls (Except.ok mdl) n none).1, r = Except.ok inst) ∧
      (runCalls (Except.ok mdl) n none).2.1 = some inst ∧
      (runCalls (Except.ok mdl) n none).2.2 = 1 := by
  refine ⟨⟨some mdl, MODEL_NAME⟩, ?_, ?_, ?_⟩
  · intro r hr
    rw [runCalls_none_ok mdl n h] at hr
    exact List.eq_of_mem_replicate hr
  · rw [runCalls_none_ok mdl n h]
  · rw [runCalls_none_ok mdl n h]

/-- Witness for C4: two acquisitions return one shared instance and
construct once. -/
theorem model_service_singleton_witness :
    ∃ inst : ModelService,
      (∀ r ∈ (runCalls (Except.ok ⟨0⟩) 2 none).1, r = Except.ok inst) ∧
      (runCalls (Except.ok ⟨0⟩) 2 none).2.1 = some inst ∧
      (runCalls (Except.ok ⟨0⟩) 2 none).2.2 = 1 :=
  model_service_singleton ⟨0⟩ 2 (by decide)

/-- C9: `get_model_info` is a total read-only snapshot whose status is
`"loaded"` exactly when the model is present and `"not loaded"` exactly
when it is absent, and every instance obtainable through
`get_model_service` reports `"loaded"`. -/
theorem get_model_info_status (cuda : Bool) (s : ModelService) :
    ((get_model_info s cuda).status = "loaded" ↔ s.model.isSome) ∧
    ((get_model_info s cuda).status = "not loaded" ↔ s.model = none) ∧
    (∀ (n : Nat) (mdl : ASRModel) (r : ModelService),
      Except.ok r ∈ (runCalls (Except.ok mdl) n none).1 →
      (get_model_info r cuda).status = "loaded") := by
  refine ⟨?_, ?_, ?_⟩
  · cases hm : s.model <;> simp [get_model_info, hm]
  · cases hm : s.model <;> simp [get_model_info, hm]
  · intro n mdl r hr
    cases n with
    | zero => simp [runCalls] at hr
    | succ m =>
      rw [runCalls_none_ok mdl (m + 1) (Nat.succ_le_succ (Nat.zero_le m))] at hr
      have h2 : r = ⟨some mdl, MODEL_NAME⟩ :=
        Except.ok.inj (List.eq_of_mem_replicate hr)
      subst h2
      simp [get_model_info]

/-- Witness for C9: an instance holding a model reports `"loaded"`. -/
theorem get_model_info_status_witness :
    (get_model_info ⟨some ⟨0⟩, MODEL_NAME⟩ true).status = "loaded" :=
  ((get_model_info_status true ⟨some ⟨0⟩, MODEL_NAME⟩).1).mpr rfl

/-- C8 counterexample: with the temp directory holding one subdirectory
and no regular file, `DELETE /cleanup` deletes zero files yet reports
`files_deleted = 1` — `len(files)` counts every listed entry, not the
deletions. -/
theorem cleanup_count_counterexample :
    (cleanup_temp_files [("sub", EntryKind.dir)] (fun _ => true)).1 =
      CleanupResponse.ok 1 ∧
    countFiles [("sub", EntryKind.dir)] = 0 ∧
    (cleanup_temp_files [("sub", EntryKind.dir)] (fun _ => true)).2 =
      [("sub", EntryKind.dir)] :=
  ⟨rfl, rfl, rfl⟩

/-- C8 amended: `/cleanup` deletes the regular files under the directory
and, on success, returns as `files_deleted` the number of listed entries
(files and subdirectories alike) — which equals the number of deletions
exactly when every entry is a regular file; any removal failure surfaces
as status 500. -/
theorem cleanup_temp_files_spec (d : List (String × EntryKind))
    (removeOk : String → Bool) :
    ((∀ p ∈ d, p.2 = EntryKind.file → removeOk p.1 = true) →
      (cleanup_temp_files d removeOk).1 = CleanupResponse.ok d.length ∧
      (cleanup_temp_files d removeOk).2 =
        d.filter (fun p => p.2 = EntryKind.dir)) ∧
    (∀ n, (deleteFilesLoop removeOk d).2.2 = some n →
      (cleanup_temp_files d removeOk).1 =
        CleanupResponse.err 500 ("Cleanup failed: could not remove " ++ n)) := by
  constructor
  · intro hok
    have h := deleteFilesLoop_all_ok removeOk d hok
    constructor <;> simp [cleanup_temp_files, h]
  · intro n hn
    simp [cleanup_temp_files, hn]

/-- Witness for C8 (amended): one file and one subdirectory, removals
succeeding: the reported count is the listing length. -/
theorem cleanup_temp_files_spec_witness :
    (cleanup_temp_files [("a.wav", EntryKind.file), ("sub", EntryKind.dir)]
      (fun _ => true)).1 = CleanupResponse.ok 2 :=
  ((cleanup_temp_files_spec _ _).1 (by decide)).1
